import Mathlib

/-!
Shallow embedding of `src/lib/object.c` from the tpm2-pkcs11 repository:
the in-memory token object store, template matcher, mechanism compatibility
checker, find-session state machine and attribute retrieval protocol.

Machine integers are modelled as `Nat` (no arithmetic in this code can
overflow: all operations are comparisons, copies and list traversals).
Byte buffers (`twist`, attribute values, mechanism parameters) are
`List Nat`.  A nullable pointer is an `Option`.  Allocation failure is
modelled by an explicit allocator oracle: a `List Bool` consumed one entry
per allocation call, an empty oracle meaning every allocation succeeds.
-/

namespace Tpm2Pkcs11

/-! ### PKCS#11 return values (from the standard `pkcs11.h` header) -/

def CKR_OK : Nat := 0x0
def CKR_HOST_MEMORY : Nat := 0x2
def CKR_GENERAL_ERROR : Nat := 0x5
def CKR_MECHANISM_INVALID : Nat := 0x70
def CKR_MECHANISM_PARAM_INVALID : Nat := 0x71
def CKR_OBJECT_HANDLE_INVALID : Nat := 0x82
def CKR_OPERATION_ACTIVE : Nat := 0x90
def CKR_OPERATION_NOT_INITIALIZED : Nat := 0x91
def CKR_BUFFER_TOO_SMALL : Nat := 0x150

/-! ### Mechanism identifiers used by the per-mechanism switch -/

def CKM_RSA_X_509 : Nat := 0x3
def CKM_RSA_PKCS_OAEP : Nat := 0x9
def CKM_AES_CBC : Nat := 0x1082

/-! ### Data model -/

/-- `CK_ATTRIBUTE`: a typed attribute.  `pValue` is a nullable byte buffer
(`none` models a NULL pointer), `ulValueLen` the declared length.  For
attributes held in an object store the buffer holds exactly `ulValueLen`
bytes; for caller templates of `object_get_attributes` the declared length
is the buffer capacity. -/
structure CK_ATTRIBUTE where
  type : Nat
  pValue : Option (List Nat)
  ulValueLen : Nat
deriving DecidableEq, Repr

/-- The zero-filled `CK_ATTRIBUTE` produced by `memset(.., 0, ..)`. -/
def zeroAttr : CK_ATTRIBUTE := ⟨0, none, 0⟩

/-- An untyped mechanism parameter blob.  The C code stores a `void *`
that is read either as raw bytes (default `memcmp` rule) or cast to
`CK_RSA_PKCS_OAEP_PARAMS` (OAEP rule); the blob carries both views. -/
structure MechBlob where
  bytes : List Nat
  hashAlg : Nat
  mgf : Nat
deriving DecidableEq, Repr

/-- A NULL parameter pointer. -/
def zeroBlob : MechBlob := ⟨[], 0, 0⟩

/-- `CK_MECHANISM`: mechanism identifier plus parameter blob and length. -/
structure CK_MECHANISM where
  mechanism : Nat
  pParameter : MechBlob
  ulParameterLen : Nat
deriving DecidableEq, Repr

/-- The zero-filled `CK_MECHANISM` produced by `memset(.., 0, ..)`. -/
def zeroMech : CK_MECHANISM := ⟨0, zeroBlob, 0⟩

/-- `tobject` (from `object.h`): a tokenized object.  The attribute store
(source spells it `atributes`) and mechanism list carry their counts as the
list length.  Key-material buffers are kept to state frame conditions. -/
structure tobject where
  id : Nat
  handle : Nat
  pub : List Nat
  priv : List Nat
  objauth : List Nat
  unsealed_auth : List Nat
  atributes : List CK_ATTRIBUTE
  mechanisms : List CK_MECHANISM
deriving DecidableEq, Repr

/-- The active-operation slot contents.  Only the find operation stores
data through this core; `other` stands for an active operation of any
other kind. -/
inductive opdata_entry where
  | find (fd : List tobject × List tobject)
  | other
deriving DecidableEq, Repr

/-- `object_find_data`: the match list (`head`) and the cursor (`cur`).
The C cursor is a pointer into the singly-linked match list; it is
modelled as the remaining suffix of the match list. -/
def object_find_data := List tobject × List tobject

/-- `token` (from `token.h`, not part of the analysed source): the ordered
object collection and the single active-operation slot. -/
structure token where
  tobjects : List tobject
  opdata : Option opdata_entry
deriving DecidableEq, Repr

/-! ### Session/operation-state collaborator.

Modelled from the spec: `token_opdata_is_active`, `token_opdata_set`,
`token_opdata_get` and `token_opdata_clear` live in `token.c`, which is not
part of the analysed source.  §6 of the spec gives their contracts:
`is_operation_active(context) -> bool`, `set_active(context, kind, state)`,
`get_active(context, kind) -> Result<state, NoActiveOperation>`,
`clear_active(context)`. -/

/-- Modelled from the spec: is any operation active on the token. -/
def token_opdata_is_active (tok : token) : Bool :=
  tok.opdata.isSome

/-- Modelled from the spec: store find-operation state in the slot. -/
def token_opdata_set (tok : token) (fd : List tobject × List tobject) : token :=
  { tok with opdata := some (.find fd) }

/-- Modelled from the spec: fetch the active find-operation state, failing
with a no-active-operation error when the slot is empty or holds an
operation of a different kind. -/
def token_opdata_get (tok : token) : Except Nat (List tobject × List tobject) :=
  match tok.opdata with
  | some (.find fd) => .ok fd
  | some .other => .error CKR_OPERATION_NOT_INITIALIZED
  | none => .error CKR_OPERATION_NOT_INITIALIZED

/-- Modelled from the spec: clear the active-operation slot. -/
def token_opdata_clear (tok : token) : token :=
  { tok with opdata := none }

/-! ### Template matcher (`object_attr_filter`) -/

/-- `memcmp(a, b, n) == 0`: the first `n` bytes agree. -/
def memcmpEq (a b : List Nat) (n : Nat) : Bool :=
  decide (a.take n = b.take n)

/-- Inner loop of `object_attr_filter`: does some attribute of the store
match the template entry `search` (same type, same length, and the first
`ulValueLen` bytes agree)? -/
def attr_match_one (attrs : List CK_ATTRIBUTE) (search : CK_ATTRIBUTE) : Bool :=
  attrs.any fun compare =>
    search.type == compare.type &&
    search.ulValueLen == compare.ulValueLen &&
    memcmpEq (compare.pValue.getD []) (search.pValue.getD []) search.ulValueLen

/-- `object_attr_filter`: returns the object when the template matches,
NULL otherwise.  A zero-entry template matches unconditionally; otherwise
every template entry must match some stored attribute. -/
def object_attr_filter (tobj : tobject) (templ : List CK_ATTRIBUTE) : Option tobject :=
  if templ.length == 0 then some tobj
  else if templ.all (attr_match_one tobj.atributes) then some tobj
  else none

/-! ### Mechanism compatibility checker (`object_mech_is_supported`) -/

/-- `object_CKM_RSA_PKCS_OAEP_params_supported`. -/
def object_CKM_RSA_PKCS_OAEP_params_supported (requested got : MechBlob) : Bool :=
  requested.hashAlg == got.hashAlg && requested.mgf == got.mgf

/-- `object_CKM_AES_CBC_params_supported`: the IV is the AES block size. -/
def object_CKM_AES_CBC_params_supported (requested : CK_MECHANISM) : Bool :=
  requested.ulParameterLen == 16

/-- The `switch (mech->mechanism)` parameter check of
`object_mech_is_supported` against one stored entry `m`. -/
def mech_params_equal (mech m : CK_MECHANISM) : Bool :=
  if mech.mechanism == CKM_RSA_X_509 then true
  else if mech.mechanism == CKM_RSA_PKCS_OAEP then
    object_CKM_RSA_PKCS_OAEP_params_supported mech.pParameter m.pParameter
  else if mech.mechanism == CKM_AES_CBC then
    object_CKM_AES_CBC_params_supported mech
  else
    mech.ulParameterLen == m.ulParameterLen &&
    memcmpEq mech.pParameter.bytes m.pParameter.bytes m.ulParameterLen

/-- The scan loop of `object_mech_is_supported`, threading the
`got_to_params` flag. -/
def object_mech_is_supported_go (mech : CK_MECHANISM) :
    List CK_MECHANISM → Bool → Nat
  | [], got => if got then CKR_MECHANISM_PARAM_INVALID else CKR_MECHANISM_INVALID
  | m :: rest, got =>
    if mech.mechanism != m.mechanism then
      object_mech_is_supported_go mech rest got
    else if mech_params_equal mech m then CKR_OK
    else object_mech_is_supported_go mech rest true

/-- `object_mech_is_supported`. -/
def object_mech_is_supported (tobj : tobject) (mech : CK_MECHANISM) : Nat :=
  object_mech_is_supported_go mech tobj.mechanisms false

/-! ### Find session lifecycle -/

/-- The match sequence computed by `object_find_init`: every object of the
registry, in registry order, that the template matcher accepts. -/
def token_matches (tok : token) (templ : List CK_ATTRIBUTE) : List tobject :=
  tok.tobjects.filter fun o => (object_attr_filter o templ).isSome

/-- `object_find_init` on the success-allocation path: fails when an
operation is already active, otherwise builds the match list in registry
order, stores it as the active find operation with the cursor at its
start, and succeeds. -/
def object_find_init (tok : token) (templ : List CK_ATTRIBUTE) : Nat × token :=
  if token_opdata_is_active tok then (CKR_OPERATION_ACTIVE, tok)
  else
    let ms := token_matches tok templ
    (CKR_OK, token_opdata_set tok (ms, ms))

/-- `object_find` (find-next).  `object` is the caller's handle array,
`object_count` the current contents of the caller's count location; the
result is `(rv, token, array, count)`.  On the error path from
`token_opdata_get` nothing is written; otherwise up to
`max_object_count` ids are copied from the cursor, the cursor advances,
and the produced count is written. -/
def object_find (tok : token) (object : List Nat) (max_object_count : Nat)
    (object_count : Nat) : Nat × token × List Nat × Nat :=
  match token_opdata_get tok with
  | .error rv => (rv, tok, object, object_count)
  | .ok (head, cur) =>
    let ids := (cur.take max_object_count).map tobject.id
    let object1 := ids ++ object.drop ids.length
    (CKR_OK, token_opdata_set tok (head, cur.drop max_object_count),
      object1, ids.length)

/-- `object_find_final`: tears down the find state and clears the slot. -/
def object_find_final (tok : token) : Nat × token :=
  match token_opdata_get tok with
  | .error rv => (rv, tok)
  | .ok _ => (CKR_OK, token_opdata_clear tok)

/-- Runs `object_find` once per page size, feeding each call a fresh
zeroed handle array of that capacity, and collects the written prefixes
(the first `count` entries of each output array) in call order. -/
def run_find_pages : token → List Nat → token × List (List Nat)
  | tok, [] => (tok, [])
  | tok, p :: ps =>
    let r := object_find tok (List.replicate p 0) p 0
    let rest := run_find_pages r.2.1 ps
    (rest.1, (r.2.2.1.take r.2.2.2) :: rest.2)

/-! ### Attribute retrieval (`object_get_attributes`) -/

/-- `find_object_by_id`: first object of the registry whose `id` equals
the handle. -/
def find_object_by_id (handle : Nat) (tok : token) : Option tobject :=
  tok.tobjects.find? fun cur_tobj => handle == cur_tobj.id

/-- `object_get_attribute_by_type`: first stored attribute of that type. -/
def object_get_attribute_by_type (tobj : tobject) (atype : Nat) : Option CK_ATTRIBUTE :=
  tobj.atributes.find? fun a => a.type == atype

/-- `object_get_attribute_full`: first stored attribute with matching
type, matching length and (length zero or byte-equal value). -/
def object_get_attribute_full (tobj : tobject) (attr : CK_ATTRIBUTE) : Option CK_ATTRIBUTE :=
  tobj.atributes.find? fun a =>
    a.type == attr.type && a.ulValueLen == attr.ulValueLen &&
    !(a.ulValueLen > 0 && !memcmpEq (a.pValue.getD []) (attr.pValue.getD []) attr.ulValueLen)

/-- One iteration of the `object_get_attributes` template loop: processes
entry `t`, returning the result code and the (possibly written) entry.  On
`CKR_BUFFER_TOO_SMALL` the entry is returned untouched, mirroring the
early `return` before any write. -/
def ga_step (tobj : tobject) (t : CK_ATTRIBUTE) : Nat × CK_ATTRIBUTE :=
  match object_get_attribute_by_type tobj t.type with
  | some found =>
    match t.pValue with
    | none => (CKR_OK, { t with ulValueLen := found.ulValueLen })
    | some buf =>
      if found.ulValueLen > t.ulValueLen then (CKR_BUFFER_TOO_SMALL, t)
      else
        (CKR_OK, { t with
          ulValueLen := found.ulValueLen,
          pValue := some ((found.pValue.getD []).take found.ulValueLen ++
                          buf.drop found.ulValueLen) })
  | none => (CKR_OK, { t with pValue := none, ulValueLen := 0 })

/-- The template loop of `object_get_attributes`: entries are processed in
order; the first failing entry aborts, leaving it and all later entries
unprocessed while earlier writes persist. -/
def object_get_attributes_go (tobj : tobject) : List CK_ATTRIBUTE → Nat × List CK_ATTRIBUTE
  | [] => (CKR_OK, [])
  | t :: rest =>
    let s := ga_step tobj t
    if s.1 == CKR_OK then
      let r := object_get_attributes_go tobj rest
      (r.1, s.2 :: r.2)
    else (s.1, s.2 :: rest)

/-- `object_get_attributes`: resolves the handle by linear scan, then runs
the template loop.  The token travels through unchanged: no statement of
the C function writes to the registry or to any object. -/
def object_get_attributes (tok : token) (object : Nat) (templ : List CK_ATTRIBUTE) :
    Nat × token × List CK_ATTRIBUTE :=
  match find_object_by_id object tok with
  | none => (CKR_OBJECT_HANDLE_INVALID, tok, templ)
  | some tobj =>
    let r := object_get_attributes_go tobj templ
    (r.1, tok, r.2)

/-! ### Object construction and append operations -/

/-- `tobject_new` on the success path: a zeroed object. -/
def tobject_new : tobject := ⟨0, 0, [], [], [], [], [], []⟩

/-- `tobject_set_blob_data`. -/
def tobject_set_blob_data (tobj : tobject) (pub priv : List Nat) : tobject :=
  { tobj with pub := pub, priv := priv }

/-- `tobject_set_auth`. -/
def tobject_set_auth (tobj : tobject) (authbin wrappedauthhex : List Nat) : tobject :=
  { tobj with unsealed_auth := authbin, objauth := wrappedauthhex }

/-- `tobject_set_handle`. -/
def tobject_set_handle (tobj : tobject) (handle : Nat) : tobject :=
  { tobj with handle := handle }

/-- `tobject_set_id`. -/
def tobject_set_id (tobj : tobject) (id : Nat) : tobject :=
  { tobj with id := id }

/-- One allocation against the oracle: pop the next outcome (an exhausted
oracle always succeeds). -/
def allocStep : List Bool → Bool × List Bool
  | [] => (true, [])
  | b :: r => (b, r)

/-- Modelled from the spec: `utils_attr_deep_copy` lives in `utils.c`,
which is not part of the analysed source.  §4.1: append "deep-copies each
new attribute's value buffer"; §7: `OutOfMemory` is an allocation failure.
Each attribute with a non-empty value costs one allocation; on failure the
error is returned and only the entries already copied were written into
the (pre-zeroed) destination. -/
def utils_attr_deep_copy : List CK_ATTRIBUTE → List Bool →
    Nat × List CK_ATTRIBUTE × List Bool
  | [], alloc => (CKR_OK, [], alloc)
  | a :: rest, alloc =>
    if a.ulValueLen == 0 then
      let r := utils_attr_deep_copy rest alloc
      (r.1, a :: r.2.1, r.2.2)
    else
      let s := allocStep alloc
      if s.1 then
        let r := utils_attr_deep_copy rest s.2
        (r.1, a :: r.2.1, r.2.2)
      else (CKR_HOST_MEMORY, [], s.2)

/-- `tobject_append_attrs` with an explicit allocator oracle.  If the
first input entry has a zero length the call is a success no-op.
Otherwise the store is reallocated to the grown size (one allocation; on
failure the store is untouched), the grown count and pointer are
committed, the new slots are zeroed, and the deep copy runs; its result
code is returned with whatever prefix it managed to copy, the remaining
new slots staying zeroed. -/
def tobject_append_attrs (tobj : tobject) (attrs : List CK_ATTRIBUTE)
    (alloc : List Bool) : Nat × tobject × List Bool :=
  match attrs with
  | [] => (CKR_OK, tobj, alloc)
  | a :: rest =>
    if a.ulValueLen == 0 then (CKR_OK, tobj, alloc)
    else
      let s := allocStep alloc
      if !s.1 then (CKR_HOST_MEMORY, tobj, s.2)
      else
        let count := (a :: rest).length
        let r := utils_attr_deep_copy (a :: rest) s.2
        (r.1,
         { tobj with atributes := tobj.atributes ++ r.2.1 ++
             List.replicate (count - r.2.1.length) zeroAttr },
         r.2.2)

/-- Modelled from the spec: `utils_mech_deep_copy` lives in `utils.c`,
which is not part of the analysed source.  §4.2 gives it the "same
deep-copy-and-grow contract" as the attribute deep copy; §4.2 `free()`
releases each parameter buffer "(if non-empty)", so each entry with a
non-empty parameter costs one allocation. -/
def utils_mech_deep_copy : List CK_MECHANISM → List Bool →
    Nat × List CK_MECHANISM × List Bool
  | [], alloc => (CKR_OK, [], alloc)
  | m :: rest, alloc =>
    if m.ulParameterLen == 0 then
      let r := utils_mech_deep_copy rest alloc
      (r.1, m :: r.2.1, r.2.2)
    else
      let s := allocStep alloc
      if s.1 then
        let r := utils_mech_deep_copy rest s.2
        (r.1, m :: r.2.1, r.2.2)
      else (CKR_HOST_MEMORY, [], s.2)

/-- `tobject_append_mechs` with an explicit allocator oracle: the same
grow-commit-copy sequence as `tobject_append_attrs` but with no empty-skip
special case. -/
def tobject_append_mechs (tobj : tobject) (mechs : List CK_MECHANISM)
    (alloc : List Bool) : Nat × tobject × List Bool :=
  let s := allocStep alloc
  if !s.1 then (CKR_HOST_MEMORY, tobj, s.2)
  else
    let count := mechs.length
    let r := utils_mech_deep_copy mechs s.2
    (r.1,
     { tobj with mechanisms := tobj.mechanisms ++ r.2.1 ++
         List.replicate (count - r.2.1.length) zeroMech },
     r.2.2)

end Tpm2Pkcs11

namespace Tpm2Pkcs11

/-! ## Theorems -/

/-- Claim C4: for every token whose active-operation slot is occupied,
`object_find_init` returns `CKR_OPERATION_ACTIVE` and changes nothing (the
token, hence the already-active find session, is returned intact); in
particular a second `object_find_init` without an intervening
`object_find_final` fails with `CKR_OPERATION_ACTIVE` and leaves the token
produced by the first init unchanged. -/
theorem object_find_init_second_rejected (tok tok0 : token)
    (templ templ1 : List CK_ATTRIBUTE)
    (hactive : token_opdata_is_active tok = true)
    (hidle : tok0.opdata = none) :
    object_find_init tok templ = (CKR_OPERATION_ACTIVE, tok) ∧
    object_find_init (object_find_init tok0 templ).2 templ1 =
      (CKR_OPERATION_ACTIVE, (object_find_init tok0 templ).2) := by
  constructor
  · simp [object_find_init, hactive]
  · simp [object_find_init, token_opdata_is_active, hidle, token_opdata_set]

/-- Witness for C4 at a concrete token: one with an active non-find
operation, one idle. -/
theorem object_find_init_second_rejected_witness :
    object_find_init ⟨[], some .other⟩ [] = (CKR_OPERATION_ACTIVE, ⟨[], some .other⟩) ∧
    object_find_init (object_find_init ⟨[], none⟩ []).2 [] =
      (CKR_OPERATION_ACTIVE, (object_find_init ⟨[], none⟩ []).2) :=
  object_find_init_second_rejected ⟨[], some .other⟩ ⟨[], none⟩ [] [] rfl rfl

/-- Claim C8: when the first entry of a non-empty attribute input sequence
has zero length, `tobject_append_attrs` succeeds, consumes no allocation
(the oracle is returned untouched) and leaves the object unchanged,
whatever the later entries are. -/
theorem tobject_append_attrs_first_empty_noop (tobj : tobject)
    (a : CK_ATTRIBUTE) (rest : List CK_ATTRIBUTE) (alloc : List Bool)
    (h : a.ulValueLen = 0) :
    tobject_append_attrs tobj (a :: rest) alloc = (CKR_OK, tobj, alloc) := by
  simp [tobject_append_attrs, h]

/-- Witness for C8: a zero-length first entry followed by a non-empty one,
against an oracle that would fail any allocation. -/
theorem tobject_append_attrs_first_empty_noop_witness :
    tobject_append_attrs tobject_new [⟨3, none, 0⟩, ⟨4, some [9], 1⟩] [false] =
      (CKR_OK, tobject_new, [false]) :=
  tobject_append_attrs_first_empty_noop tobject_new ⟨3, none, 0⟩ [⟨4, some [9], 1⟩]
    [false] rfl

/-- Claim C10: when the token's active-operation slot holds no find
session (it is empty or holds an operation of another kind),
`object_find` returns the no-active-operation error of the operation-state
collaborator and writes nothing: the caller's handle array and count
location come back exactly as passed in. -/
theorem object_find_no_find_session_writes_nothing (tok : token)
    (arr : List Nat) (max cnt : Nat)
    (h : ∀ fd, tok.opdata ≠ some (.find fd)) :
    object_find tok arr max cnt = (CKR_OPERATION_NOT_INITIALIZED, tok, arr, cnt) := by
  cases htok : tok.opdata with
  | none => simp [object_find, token_opdata_get, htok]
  | some e =>
    cases e with
    | other => simp [object_find, token_opdata_get, htok]
    | find fd => exact absurd htok (h fd)

/-- Witness for C10 at a concrete idle token. -/
theorem object_find_no_find_session_writes_nothing_witness :
    object_find ⟨[], none⟩ [0, 0] 2 5 = (CKR_OPERATION_NOT_INITIALIZED, ⟨[], none⟩, [0, 0], 5) :=
  object_find_no_find_session_writes_nothing ⟨[], none⟩ [0, 0] 2 5
    (fun _ h => Option.noConfusion h)

end Tpm2Pkcs11

namespace Tpm2Pkcs11

/-- Closed form of the `object_mech_is_supported` scan loop: the result is
`CKR_OK` when some entry passes both the identifier and the parameter
check, otherwise `CKR_MECHANISM_PARAM_INVALID` when the flag is set or
some entry matches the identifier, otherwise `CKR_MECHANISM_INVALID`. -/
theorem mech_go_eq (mech : CK_MECHANISM) (ms : List CK_MECHANISM) (got : Bool) :
    object_mech_is_supported_go mech ms got =
      if ms.any (fun m => mech.mechanism == m.mechanism && mech_params_equal mech m) then
        CKR_OK
      else if got || ms.any (fun m => mech.mechanism == m.mechanism) then
        CKR_MECHANISM_PARAM_INVALID
      else CKR_MECHANISM_INVALID := by
  induction ms generalizing got with
  | nil => simp [object_mech_is_supported_go]
  | cons m rest ih =>
    simp only [object_mech_is_supported_go, List.any_cons]
    by_cases h1 : mech.mechanism == m.mechanism
    · by_cases h2 : mech_params_equal mech m
      · simp [h1, h2, bne]
      · rw [if_neg (by simp [bne, h1]), ih]
        simp [h1, eq_false_of_ne_true h2, beq_iff_eq.mp h1]
    · rw [if_pos (by simp [bne, h1]), ih]
      simp [eq_false_of_ne_true h1]

/-- Claim C5: `object_mech_is_supported` returns `CKR_MECHANISM_INVALID`
exactly when no stored entry carries the requested identifier; it returns
`CKR_MECHANISM_PARAM_INVALID` exactly when some entry carries the
identifier but no such entry passes the per-mechanism parameter rule
(`mech_params_equal`); it returns `CKR_OK` exactly when some entry carries
the identifier and passes the rule; and these three are the only possible
results. -/
theorem object_mech_is_supported_trichotomy (tobj : tobject) (mech : CK_MECHANISM) :
    (object_mech_is_supported tobj mech = CKR_MECHANISM_INVALID ↔
      ∀ m ∈ tobj.mechanisms, mech.mechanism ≠ m.mechanism) ∧
    (object_mech_is_supported tobj mech = CKR_MECHANISM_PARAM_INVALID ↔
      ((∃ m ∈ tobj.mechanisms, mech.mechanism = m.mechanism) ∧
        ∀ m ∈ tobj.mechanisms, mech.mechanism = m.mechanism →
          mech_params_equal mech m = false)) ∧
    (object_mech_is_supported tobj mech = CKR_OK ↔
      ∃ m ∈ tobj.mechanisms, mech.mechanism = m.mechanism ∧
        mech_params_equal mech m = true) ∧
    (object_mech_is_supported tobj mech = CKR_OK ∨
      object_mech_is_supported tobj mech = CKR_MECHANISM_PARAM_INVALID ∨
      object_mech_is_supported tobj mech = CKR_MECHANISM_INVALID) := by
  rw [object_mech_is_supported, mech_go_eq]
  by_cases hA : (tobj.mechanisms.any
      fun m => mech.mechanism == m.mechanism && mech_params_equal mech m) = true
  · obtain ⟨m0, hm0, hid0, hp0⟩ :
        ∃ m ∈ tobj.mechanisms, mech.mechanism = m.mechanism ∧
          mech_params_equal mech m = true := by
      simpa [List.any_eq_true, Bool.and_eq_true, beq_iff_eq] using hA
    rw [if_pos hA]
    refine ⟨⟨fun h => absurd h (by decide), fun hall => absurd hid0 (hall m0 hm0)⟩,
      ⟨fun h => absurd h (by decide), fun hc => ?_⟩,
      ⟨fun _ => ⟨m0, hm0, hid0, hp0⟩, fun _ => rfl⟩, Or.inl rfl⟩
    have hfalse := hc.2 m0 hm0 hid0
    rw [hp0] at hfalse
    exact absurd hfalse (by decide)
  · rw [if_neg hA]
    have hnopass : ∀ m ∈ tobj.mechanisms, mech.mechanism = m.mechanism →
        mech_params_equal mech m = false := by
      intro m hm hid
      by_contra hne
      exact hA (List.any_eq_true.mpr ⟨m, hm, by
        simp [Bool.and_eq_true, beq_iff_eq, hid, eq_true_of_ne_false hne]⟩)
    by_cases hB : (tobj.mechanisms.any fun m => mech.mechanism == m.mechanism) = true
    · obtain ⟨m0, hm0, hid0⟩ : ∃ m ∈ tobj.mechanisms, mech.mechanism = m.mechanism := by
        simpa [List.any_eq_true, beq_iff_eq] using hB
      rw [if_pos (by simp [hB])]
      refine ⟨⟨fun h => absurd h (by decide), fun hall => absurd hid0 (hall m0 hm0)⟩,
        ⟨fun _ => ⟨⟨m0, hm0, hid0⟩, hnopass⟩, fun _ => rfl⟩,
        ⟨fun h => absurd h (by decide), fun hc => ?_⟩, Or.inr (Or.inl rfl)⟩
      obtain ⟨m1, hm1, hid1, hp1⟩ := hc
      rw [hnopass m1 hm1 hid1] at hp1
      exact absurd hp1 (by decide)
    · have hnone : ∀ m ∈ tobj.mechanisms, mech.mechanism ≠ m.mechanism := by
        intro m hm
        by_contra hid
        exact hB (List.any_eq_true.mpr ⟨m, hm, beq_iff_eq.mpr hid⟩)
      rw [if_neg (by simpa using hB)]
      refine ⟨⟨fun _ => hnone, fun _ => rfl⟩,
        ⟨fun h => absurd h (by decide), fun hc => ?_⟩,
        ⟨fun h => absurd h (by decide), fun hc => ?_⟩, Or.inr (Or.inr rfl)⟩
      · obtain ⟨⟨m0, hm0, hid0⟩, _⟩ := hc
        exact absurd hid0 (hnone m0 hm0)
      · obtain ⟨m0, hm0, hid0, _⟩ := hc
        exact absurd hid0 (hnone m0 hm0)

end Tpm2Pkcs11

namespace Tpm2Pkcs11

/-- Claim C9: the template matcher is monotone under template subsetting:
if an object passes `object_attr_filter` for a template T, it passes for
any template whose entries all occur in T; and the empty template is
accepted by every object. -/
theorem object_attr_filter_subset_monotone (tobj : tobject)
    (T T1 : List CK_ATTRIBUTE)
    (hT : (object_attr_filter tobj T).isSome = true)
    (hsub : ∀ a ∈ T1, a ∈ T) :
    object_attr_filter tobj T1 = some tobj ∧
    ∀ o : tobject, object_attr_filter o [] = some o := by
  refine ⟨?_, fun o => by simp [object_attr_filter]⟩
  have hall : ∀ a ∈ T1, attr_match_one tobj.atributes a = true := by
    intro a ha
    have haT : a ∈ T := hsub a ha
    cases T with
    | nil => cases haT
    | cons t ts =>
      have hAll : (t :: ts).all (attr_match_one tobj.atributes) = true := by
        by_contra hfalse
        rw [object_attr_filter, if_neg (by simp),
          if_neg (by simpa using hfalse)] at hT
        simp at hT
      exact List.all_eq_true.mp hAll a haT
  cases T1 with
  | nil => simp [object_attr_filter]
  | cons b bs =>
    simp only [object_attr_filter, List.length_cons]
    rw [if_neg (by simp), if_pos (List.all_eq_true.mpr hall)]

/-- Witness for C9: an object with two attributes, a two-entry matching
template and its one-entry sub-template. -/
theorem object_attr_filter_subset_monotone_witness :
    object_attr_filter ⟨0, 0, [], [], [], [], [⟨1, some [2], 1⟩, ⟨2, none, 0⟩], []⟩
        [⟨2, none, 0⟩] =
      some ⟨0, 0, [], [], [], [], [⟨1, some [2], 1⟩, ⟨2, none, 0⟩], []⟩ ∧
    ∀ o : tobject, object_attr_filter o [] = some o :=
  object_attr_filter_subset_monotone
    ⟨0, 0, [], [], [], [], [⟨1, some [2], 1⟩, ⟨2, none, 0⟩], []⟩
    [⟨1, some [2], 1⟩, ⟨2, none, 0⟩] [⟨2, none, 0⟩] (by decide) (by decide)

/-- Helper for C7: on a template whose every entry carries a NULL buffer,
the retrieval loop succeeds and only writes reported lengths. -/
theorem ga_go_probe (tobj : tobject) :
    ∀ (l : List CK_ATTRIBUTE), (∀ t ∈ l, t.pValue = none) →
    object_get_attributes_go tobj l = (CKR_OK,
      l.map fun t =>
        match object_get_attribute_by_type tobj t.type with
        | some found => { t with ulValueLen := found.ulValueLen }
        | none => { t with pValue := none, ulValueLen := 0 }) := by
  intro l
  induction l with
  | nil => intro _; simp [object_get_attributes_go]
  | cons t rest ih =>
    intro hnull
    have ht : t.pValue = none := hnull t (List.mem_cons_self t rest)
    have hstep : ga_step tobj t = (CKR_OK,
        match object_get_attribute_by_type tobj t.type with
        | some found => { t with ulValueLen := found.ulValueLen }
        | none => { t with pValue := none, ulValueLen := 0 }) := by
      unfold ga_step
      cases hf : object_get_attribute_by_type tobj t.type with
      | some found => rw [ht]
      | none => rfl
    rw [object_get_attributes_go, hstep]
    simp only [List.map_cons]
    rw [ih (fun a ha => hnull a (List.mem_cons_of_mem t ha))]
    simp

/-- Claim C7: `object_get_attributes` never mutates the token (hence no
object of the registry), whatever handle and template it is given; and on
a pure size-probe template (every entry a NULL buffer) against a resolved
object it succeeds, reporting for each entry the length of the attribute
found by type (0 and an absent buffer when the type is absent) while the
buffers stay NULL, so no value bytes are copied. -/
theorem object_get_attributes_readonly_probe (tok : token) (h : Nat)
    (templ : List CK_ATTRIBUTE) (tobj : tobject)
    (hres : find_object_by_id h tok = some tobj)
    (hprobe : ∀ t ∈ templ, t.pValue = none) :
    (∀ (h2 : Nat) (templ2 : List CK_ATTRIBUTE),
      (object_get_attributes tok h2 templ2).2.1 = tok) ∧
    object_get_attributes tok h templ = (CKR_OK, tok,
      templ.map fun t =>
        match object_get_attribute_by_type tobj t.type with
        | some found => { t with ulValueLen := found.ulValueLen }
        | none => { t with pValue := none, ulValueLen := 0 }) := by
  constructor
  · intro h2 templ2
    unfold object_get_attributes
    cases find_object_by_id h2 tok with
    | none => rfl
    | some o => rfl
  · unfold object_get_attributes
    simp only [hres, ga_go_probe tobj templ hprobe]

/-- Witness for C7: a one-object token probed for a present 3-byte
attribute and an absent one, both with NULL buffers. -/
theorem object_get_attributes_readonly_probe_witness :
    (∀ (h2 : Nat) (templ2 : List CK_ATTRIBUTE),
      (object_get_attributes ⟨[⟨1, 0, [], [], [], [], [⟨5, some [7, 8, 9], 3⟩], []⟩], none⟩
        h2 templ2).2.1 = ⟨[⟨1, 0, [], [], [], [], [⟨5, some [7, 8, 9], 3⟩], []⟩], none⟩) ∧
    object_get_attributes ⟨[⟨1, 0, [], [], [], [], [⟨5, some [7, 8, 9], 3⟩], []⟩], none⟩ 1
        [⟨5, none, 0⟩, ⟨6, none, 4⟩] =
      (CKR_OK, ⟨[⟨1, 0, [], [], [], [], [⟨5, some [7, 8, 9], 3⟩], []⟩], none⟩,
        (([⟨5, none, 0⟩, ⟨6, none, 4⟩] : List CK_ATTRIBUTE)).map fun t =>
          match object_get_attribute_by_type
              (⟨1, 0, [], [], [], [], [⟨5, some [7, 8, 9], 3⟩], []⟩ : tobject) t.type with
          | some found => { t with ulValueLen := found.ulValueLen }
          | none => { t with pValue := none, ulValueLen := 0 }) :=
  object_get_attributes_readonly_probe
    ⟨[⟨1, 0, [], [], [], [], [⟨5, some [7, 8, 9], 3⟩], []⟩], none⟩ 1
    [⟨5, none, 0⟩, ⟨6, none, 4⟩] ⟨1, 0, [], [], [], [], [⟨5, some [7, 8, 9], 3⟩], []⟩
    rfl (by decide)

end Tpm2Pkcs11

namespace Tpm2Pkcs11

/-- Helper for C6: the retrieval loop on a template split as
pre ++ failing ++ post, where every entry of pre processes cleanly and the
head of the suffix fails, returns the failure code with pre written and
the suffix untouched. -/
theorem ga_go_fail_split (tobj : tobject) (t : CK_ATTRIBUTE)
    (post : List CK_ATTRIBUTE) (hstep : ga_step tobj t = (CKR_BUFFER_TOO_SMALL, t)) :
    ∀ (pre : List CK_ATTRIBUTE), (∀ t2 ∈ pre, (ga_step tobj t2).1 = CKR_OK) →
    object_get_attributes_go tobj (pre ++ t :: post) =
      (CKR_BUFFER_TOO_SMALL, (pre.map fun t2 => (ga_step tobj t2).2) ++ t :: post) := by
  intro pre
  induction pre with
  | nil =>
    intro _
    simp [object_get_attributes_go, hstep, CKR_BUFFER_TOO_SMALL, CKR_OK]
  | cons p ps ih =>
    intro hpre
    have hp : (ga_step tobj p).1 = CKR_OK := hpre p (List.mem_cons_self p ps)
    have ihh := ih (fun a ha => hpre a (List.mem_cons_of_mem p ha))
    simp only [List.cons_append, object_get_attributes_go, hp, beq_self_eq_true, if_true]
    rw [show List.append ps (t :: post) = ps ++ t :: post from rfl, ihh]
    simp

/-- Claim C6: on a resolvable handle, if every entry before some template
entry processes cleanly and that entry requests a present attribute into a
supplied buffer of capacity smaller than the attribute's length, then
`object_get_attributes` returns `CKR_BUFFER_TOO_SMALL` for the whole call,
the failing entry and all entries after it come back untouched, and the
writes already made to the earlier entries persist. -/
theorem object_get_attributes_too_small_aborts (tok : token) (h : Nat)
    (tobj : tobject) (pre post : List CK_ATTRIBUTE) (t found : CK_ATTRIBUTE)
    (buf : List Nat)
    (hres : find_object_by_id h tok = some tobj)
    (hpre : ∀ t2 ∈ pre, (ga_step tobj t2).1 = CKR_OK)
    (hfound : object_get_attribute_by_type tobj t.type = some found)
    (hbuf : t.pValue = some buf)
    (hsmall : found.ulValueLen > t.ulValueLen) :
    object_get_attributes tok h (pre ++ t :: post) =
      (CKR_BUFFER_TOO_SMALL, tok,
        (pre.map fun t2 => (ga_step tobj t2).2) ++ t :: post) := by
  have hstep : ga_step tobj t = (CKR_BUFFER_TOO_SMALL, t) := by
    simp only [ga_step, hfound, hbuf]
    rw [if_pos hsmall]
  unfold object_get_attributes
  simp only [hres, ga_go_fail_split tobj t post hstep pre hpre]

/-- Witness for C6: object with a 3-byte attribute of type 5 and a 1-byte
attribute of type 6; the template probes type 6, then requests type 5 into
a 2-byte buffer, then probes type 6 again. -/
theorem object_get_attributes_too_small_aborts_witness :
    object_get_attributes
        ⟨[⟨1, 0, [], [], [], [], [⟨5, some [1, 2, 3], 3⟩, ⟨6, some [9], 1⟩], []⟩], none⟩ 1
        (([⟨6, none, 0⟩] : List CK_ATTRIBUTE) ++ ⟨5, some [0, 0], 2⟩ :: [⟨6, none, 7⟩]) =
      (CKR_BUFFER_TOO_SMALL,
        ⟨[⟨1, 0, [], [], [], [], [⟨5, some [1, 2, 3], 3⟩, ⟨6, some [9], 1⟩], []⟩], none⟩,
        (([⟨6, none, 0⟩] : List CK_ATTRIBUTE).map fun t2 =>
          (ga_step ⟨1, 0, [], [], [], [], [⟨5, some [1, 2, 3], 3⟩, ⟨6, some [9], 1⟩], []⟩ t2).2) ++
          ⟨5, some [0, 0], 2⟩ :: [⟨6, none, 7⟩]) :=
  object_get_attributes_too_small_aborts
    ⟨[⟨1, 0, [], [], [], [], [⟨5, some [1, 2, 3], 3⟩, ⟨6, some [9], 1⟩], []⟩], none⟩ 1
    ⟨1, 0, [], [], [], [], [⟨5, some [1, 2, 3], 3⟩, ⟨6, some [9], 1⟩], []⟩
    [⟨6, none, 0⟩] [⟨6, none, 7⟩] ⟨5, some [0, 0], 2⟩ ⟨5, some [1, 2, 3], 3⟩ [0, 0]
    rfl (by decide) rfl rfl (by decide)

end Tpm2Pkcs11

namespace Tpm2Pkcs11

/-- Helper for C1: running any sequence of page sizes from a token whose
find cursor is at suffix s collects exactly the ids of the first
sum-of-pages elements of s, and leaves the cursor advanced by that sum. -/
theorem run_find_pages_spec (head : List tobject) (ps : List Nat) :
    ∀ (tok : token) (s : List tobject),
    tok.opdata = some (.find (head, s)) →
    (run_find_pages tok ps).1 = { tok with opdata := some (.find (head, s.drop ps.sum)) } ∧
    ((run_find_pages tok ps).2).flatten = (s.take ps.sum).map tobject.id := by
  induction ps with
  | nil =>
    intro tok s h
    constructor
    · obtain ⟨tobjs, od⟩ := tok
      simp only at h
      simp [run_find_pages, h]
    · simp [run_find_pages]
  | cons p ps ih =>
    intro tok s h
    have hget : token_opdata_get tok = .ok (head, s) := by
      simp [token_opdata_get, h]
    have hfind : object_find tok (List.replicate p 0) p 0 =
        (CKR_OK, token_opdata_set tok (head, s.drop p),
          ((s.take p).map tobject.id) ++ (List.replicate p 0).drop ((s.take p).map tobject.id).length,
          ((s.take p).map tobject.id).length) := by
      simp only [object_find, hget]
    have hnext : (token_opdata_set tok (head, s.drop p)).opdata =
        some (.find (head, s.drop p)) := rfl
    obtain ⟨ih1, ih2⟩ := ih (token_opdata_set tok (head, s.drop p)) (s.drop p) hnext
    simp only [run_find_pages, hfind]
    constructor
    · rw [ih1]
      simp [token_opdata_set, List.drop_drop, List.sum_cons, Nat.add_comm]
    · simp only [List.flatten_cons, List.take_left]
      rw [ih2, List.sum_cons, List.take_add, List.map_append]

/-- Claim C1: from an idle token, a successful `object_find_init` followed
by `object_find` calls with arbitrary positive page sizes whose total
covers the match count yields, concatenated in call order, exactly the ids
of the full ordered match sequence computed at init (every object of the
registry, in registry order, accepted by the template matcher) — no
duplicates, no omissions; and once the cursor is exhausted a further
`object_find` returns `CKR_OK` with count 0, writing nothing. -/
theorem object_find_pagination_exact (tok : token) (templ : List CK_ATTRIBUTE)
    (ps : List Nat) (hidle : tok.opdata = none)
    (_hpos : ∀ p ∈ ps, 0 < p)
    (hsum : (token_matches tok templ).length ≤ ps.sum) :
    (object_find_init tok templ).1 = CKR_OK ∧
    ((run_find_pages (object_find_init tok templ).2 ps).2).flatten =
      (token_matches tok templ).map tobject.id ∧
    ∀ (arr : List Nat) (max cnt : Nat),
      object_find (run_find_pages (object_find_init tok templ).2 ps).1 arr max cnt =
        (CKR_OK, (run_find_pages (object_find_init tok templ).2 ps).1, arr, 0) := by
  have hini : object_find_init tok templ =
      (CKR_OK, token_opdata_set tok (token_matches tok templ, token_matches tok templ)) := by
    simp [object_find_init, token_opdata_is_active, hidle]
  have hslot : (token_opdata_set tok (token_matches tok templ, token_matches tok templ)).opdata
      = some (.find (token_matches tok templ, token_matches tok templ)) := rfl
  obtain ⟨h1, h2⟩ := run_find_pages_spec (token_matches tok templ) ps
    (token_opdata_set tok (token_matches tok templ, token_matches tok templ))
    (token_matches tok templ) hslot
  have hdrop : (token_matches tok templ).drop ps.sum = [] :=
    List.drop_eq_nil_of_le hsum
  have htake : (token_matches tok templ).take ps.sum = token_matches tok templ :=
    List.take_of_length_le hsum
  refine ⟨by rw [hini], ?_, ?_⟩
  · simp only [hini]
    rw [h2, htake]
  · intro arr max cnt
    simp only [hini]
    rw [h1, hdrop]
    simp [object_find, token_opdata_get, token_opdata_set]

/-- Witness for C1: two objects, a template matching only the first, page
sizes 1 then 2. -/
theorem object_find_pagination_exact_witness :
    (object_find_init ⟨[⟨1, 0, [], [], [], [], [⟨5, some [75], 1⟩], []⟩,
        ⟨2, 0, [], [], [], [], [⟨5, some [67], 1⟩], []⟩], none⟩ [⟨5, some [75], 1⟩]).1 = CKR_OK ∧
    ((run_find_pages (object_find_init ⟨[⟨1, 0, [], [], [], [], [⟨5, some [75], 1⟩], []⟩,
        ⟨2, 0, [], [], [], [], [⟨5, some [67], 1⟩], []⟩], none⟩ [⟨5, some [75], 1⟩]).2 [1, 2]).2).flatten =
      (token_matches ⟨[⟨1, 0, [], [], [], [], [⟨5, some [75], 1⟩], []⟩,
        ⟨2, 0, [], [], [], [], [⟨5, some [67], 1⟩], []⟩], none⟩ [⟨5, some [75], 1⟩]).map tobject.id ∧
    ∀ (arr : List Nat) (max cnt : Nat),
      object_find (run_find_pages (object_find_init ⟨[⟨1, 0, [], [], [], [], [⟨5, some [75], 1⟩], []⟩,
          ⟨2, 0, [], [], [], [], [⟨5, some [67], 1⟩], []⟩], none⟩ [⟨5, some [75], 1⟩]).2 [1, 2]).1 arr max cnt =
        (CKR_OK, (run_find_pages (object_find_init ⟨[⟨1, 0, [], [], [], [], [⟨5, some [75], 1⟩], []⟩,
          ⟨2, 0, [], [], [], [], [⟨5, some [67], 1⟩], []⟩], none⟩ [⟨5, some [75], 1⟩]).2 [1, 2]).1, arr, 0) :=
  object_find_pagination_exact
    ⟨[⟨1, 0, [], [], [], [], [⟨5, some [75], 1⟩], []⟩,
      ⟨2, 0, [], [], [], [], [⟨5, some [67], 1⟩], []⟩], none⟩
    [⟨5, some [75], 1⟩] [1, 2] rfl (by decide) (by decide)

end Tpm2Pkcs11

namespace Tpm2Pkcs11

/-- Claim C2 counterexample: with the growth reallocation succeeding and
the deep-copy allocation failing, both append operations fail with
`CKR_HOST_MEMORY` yet leave the object changed (the store has grown by a
zero-filled slot), refuting the claim that an OutOfMemory failure always
leaves the store exactly as before. -/
theorem tobject_append_oom_not_atomic_cex :
    (tobject_append_attrs tobject_new [⟨1, some [7], 1⟩] [true, false]).1 = CKR_HOST_MEMORY ∧
    (tobject_append_attrs tobject_new [⟨1, some [7], 1⟩] [true, false]).2.1 ≠ tobject_new ∧
    (tobject_append_mechs tobject_new [⟨5, ⟨[9], 0, 0⟩, 1⟩] [true, false]).1 = CKR_HOST_MEMORY ∧
    (tobject_append_mechs tobject_new [⟨5, ⟨[9], 0, 0⟩, 1⟩] [true, false]).2.1 ≠ tobject_new := by
  refine ⟨rfl, ?_, rfl, ?_⟩ <;> decide

/-- Helper for C2: the attribute deep copy never writes more entries than
it was given. -/
theorem utils_attr_deep_copy_len_le (l : List CK_ATTRIBUTE) :
    ∀ o : List Bool, ((utils_attr_deep_copy l o).2.1).length ≤ l.length := by
  induction l with
  | nil => intro o; simp [utils_attr_deep_copy]
  | cons a rest ih =>
    intro o
    simp only [utils_attr_deep_copy]
    by_cases h : (a.ulValueLen == 0) = true
    · rw [if_pos h]; simpa using ih o
    · rw [if_neg h]
      by_cases h2 : (allocStep o).1 = true
      · rw [if_pos h2]; simpa using ih (allocStep o).2
      · rw [if_neg h2]; simp

/-- Helper for C2: the mechanism deep copy never writes more entries than
it was given. -/
theorem utils_mech_deep_copy_len_le (l : List CK_MECHANISM) :
    ∀ o : List Bool, ((utils_mech_deep_copy l o).2.1).length ≤ l.length := by
  induction l with
  | nil => intro o; simp [utils_mech_deep_copy]
  | cons m rest ih =>
    intro o
    simp only [utils_mech_deep_copy]
    by_cases h : (m.ulParameterLen == 0) = true
    · rw [if_pos h]; simpa using ih o
    · rw [if_neg h]
      by_cases h2 : (allocStep o).1 = true
      · rw [if_pos h2]; simpa using ih (allocStep o).2
      · rw [if_neg h2]; simp

/-- Claim C2 amended: the append operations are atomic only against a
failure of the initial growth reallocation — there the object and store
come back unchanged, for attributes and for mechanisms alike.  When the
growth allocation succeeds, the grown count is committed before the deep
copy runs, so the store's size has grown by the full input count whether
or not the deep copy subsequently fails. -/
theorem tobject_append_grow_alloc_atomicity (tobj : tobject)
    (a : CK_ATTRIBUTE) (rest : List CK_ATTRIBUTE) (mechs : List CK_MECHANISM)
    (alloc alloc2 alloc3 : List Bool)
    (hfail : (allocStep alloc).1 = false) (hne : a.ulValueLen ≠ 0)
    (hfail2 : (allocStep alloc2).1 = false)
    (hok3 : (allocStep alloc3).1 = true) :
    tobject_append_attrs tobj (a :: rest) alloc = (CKR_HOST_MEMORY, tobj, (allocStep alloc).2) ∧
    tobject_append_mechs tobj mechs alloc2 = (CKR_HOST_MEMORY, tobj, (allocStep alloc2).2) ∧
    ((tobject_append_attrs tobj (a :: rest) alloc3).2.1).atributes.length =
      tobj.atributes.length + (a :: rest).length ∧
    ((tobject_append_mechs tobj mechs alloc3).2.1).mechanisms.length =
      tobj.mechanisms.length + mechs.length := by
  refine ⟨?_, ?_, ?_, ?_⟩
  · simp [tobject_append_attrs, hne, hfail]
  · simp [tobject_append_mechs, hfail2]
  · have hle := utils_attr_deep_copy_len_le (a :: rest) (allocStep alloc3).2
    rw [tobject_append_attrs, if_neg (by simpa using hne), if_neg (by simp [hok3])]
    simp only [List.length_cons] at hle
    simp [List.length_append, List.length_replicate]
    omega
  · have hle := utils_mech_deep_copy_len_le mechs (allocStep alloc3).2
    rw [tobject_append_mechs, if_neg (by simp [hok3])]
    simp [List.length_append, List.length_replicate]
    omega

/-- Witness for the amended C2 at concrete inputs: an immediately-failing
oracle for the atomic clauses, an all-success oracle for the growth
clauses. -/
theorem tobject_append_grow_alloc_atomicity_witness :
    tobject_append_attrs tobject_new [⟨1, some [7], 1⟩] [false] =
      (CKR_HOST_MEMORY, tobject_new, []) ∧
    tobject_append_mechs tobject_new [⟨5, ⟨[9], 0, 0⟩, 1⟩] [false] =
      (CKR_HOST_MEMORY, tobject_new, []) ∧
    ((tobject_append_attrs tobject_new [⟨1, some [7], 1⟩] []).2.1).atributes.length =
      tobject_new.atributes.length + ([⟨1, some [7], 1⟩] : List CK_ATTRIBUTE).length ∧
    ((tobject_append_mechs tobject_new [⟨5, ⟨[9], 0, 0⟩, 1⟩] []).2.1).mechanisms.length =
      tobject_new.mechanisms.length + ([⟨5, ⟨[9], 0, 0⟩, 1⟩] : List CK_MECHANISM).length :=
  tobject_append_grow_alloc_atomicity tobject_new ⟨1, some [7], 1⟩ []
    [⟨5, ⟨[9], 0, 0⟩, 1⟩] [false] [false] [] rfl (by decide) rfl rfl

end Tpm2Pkcs11

namespace Tpm2Pkcs11

/-- Claim C3 counterexample: an object whose caller-visible handle was set
to 5 via `tobject_set_handle` and whose internal id was set to 7 via
`tobject_set_id`.  After a successful `object_find_init` with the empty
template, `object_find` writes 7 — the internal id, not the value assigned
through the handle setter. -/
theorem object_find_returns_id_not_handle_cex :
    (object_find
        (object_find_init ⟨[tobject_set_id (tobject_set_handle tobject_new 5) 7], none⟩ []).2
        [0] 1 0).2.2.1 = [7] ∧
    (tobject_set_id (tobject_set_handle tobject_new 5) 7).handle = 5 ∧
    (7 : Nat) ≠ 5 := by
  refine ⟨rfl, rfl, by decide⟩

/-- Helper for C3: in a registry whose ids are pairwise distinct, the
linear scan by id finds exactly the object carrying that id. -/
theorem find_by_id_first (l : List tobject) :
    (l.map tobject.id).Nodup → ∀ o ∈ l, l.find? (fun x => o.id == x.id) = some o := by
  induction l with
  | nil => intro _ o ho; cases ho
  | cons x xs ih =>
    intro hnd o ho
    rw [List.map_cons, List.nodup_cons] at hnd
    rcases List.mem_cons.mp ho with rfl | hmem
    · simp [List.find?]
    · have hne : (o.id == x.id) = false := by
        refine beq_eq_false_iff_ne.mpr ?_
        intro heq
        exact hnd.1 (heq ▸ List.mem_map_of_mem tobject.id hmem)
      rw [List.find?_cons_of_neg _ (by simp [hne])]
      exact ih hnd.2 o hmem

/-- Claim C3 amended: each value that `object_find` writes into the
caller's array is the matched object's internal numeric id (the field set
by `tobject_set_id`), not the `handle` field set by `tobject_set_handle`;
and provided the registry's ids are pairwise distinct, resolving that
value — as `object_get_attributes` does through `find_object_by_id` —
yields that same object. -/
theorem object_find_writes_ids_resolvable (tok : token)
    (templ : List CK_ATTRIBUTE) (arr : List Nat) (p cnt : Nat)
    (hidle : tok.opdata = none)
    (hnodup : (tok.tobjects.map tobject.id).Nodup) :
    ((object_find (object_find_init tok templ).2 arr p cnt).2.2.1).take
        ((object_find (object_find_init tok templ).2 arr p cnt).2.2.2) =
      ((token_matches tok templ).take p).map tobject.id ∧
    ∀ o ∈ token_matches tok templ,
      find_object_by_id o.id tok = some o ∧
      ∀ gt : List CK_ATTRIBUTE,
        object_get_attributes tok o.id gt =
          ((object_get_attributes_go o gt).1, tok, (object_get_attributes_go o gt).2) := by
  have hini : object_find_init tok templ =
      (CKR_OK, token_opdata_set tok (token_matches tok templ, token_matches tok templ)) := by
    simp [object_find_init, token_opdata_is_active, hidle]
  constructor
  · simp only [hini]
    simp [object_find, token_opdata_get, token_opdata_set, List.take_left]
  · intro o ho
    have hmem : o ∈ tok.tobjects := List.mem_of_mem_filter ho
    have hfind : find_object_by_id o.id tok = some o :=
      find_by_id_first tok.tobjects hnodup o hmem
    refine ⟨hfind, fun gt => ?_⟩
    unfold object_get_attributes
    simp only [hfind]

/-- Witness for the amended C3: two objects with distinct ids, the empty
template, page size 5. -/
theorem object_find_writes_ids_resolvable_witness :
    ((object_find (object_find_init ⟨[⟨1, 11, [], [], [], [], [], []⟩,
        ⟨2, 22, [], [], [], [], [], []⟩], none⟩ []).2 [0, 0, 0, 0, 0] 5 0).2.2.1).take
        ((object_find (object_find_init ⟨[⟨1, 11, [], [], [], [], [], []⟩,
          ⟨2, 22, [], [], [], [], [], []⟩], none⟩ []).2 [0, 0, 0, 0, 0] 5 0).2.2.2) =
      ((token_matches ⟨[⟨1, 11, [], [], [], [], [], []⟩,
        ⟨2, 22, [], [], [], [], [], []⟩], none⟩ []).take 5).map tobject.id ∧
    ∀ o ∈ token_matches ⟨[⟨1, 11, [], [], [], [], [], []⟩,
        ⟨2, 22, [], [], [], [], [], []⟩], none⟩ [],
      find_object_by_id o.id ⟨[⟨1, 11, [], [], [], [], [], []⟩,
        ⟨2, 22, [], [], [], [], [], []⟩], none⟩ = some o ∧
      ∀ gt : List CK_ATTRIBUTE,
        object_get_attributes ⟨[⟨1, 11, [], [], [], [], [], []⟩,
            ⟨2, 22, [], [], [], [], [], []⟩], none⟩ o.id gt =
          ((object_get_attributes_go o gt).1,
            ⟨[⟨1, 11, [], [], [], [], [], []⟩, ⟨2, 22, [], [], [], [], [], []⟩], none⟩,
            (object_get_attributes_go o gt).2) :=
  object_find_writes_ids_resolvable
    ⟨[⟨1, 11, [], [], [], [], [], []⟩, ⟨2, 22, [], [], [], [], [], []⟩], none⟩
    [] [0, 0, 0, 0, 0] 5 0 rfl (by decide)

end Tpm2Pkcs11
